import Mathlib

/-!
Shallow embedding of the `codex-rs/lmstudio` crate
(`src/codex-rs/lmstudio/src/client.rs` and `src/codex-rs/lmstudio/src/lib.rs`).

The crate is glue code: an HTTP client wrapper with two network calls
(`check_server`, `fetch_models`), a binary locator
(`find_lms_binary_with_home_dir`), and a readiness routine
(`ensure_oss_ready`) that may shell out to the `lms` executable.

The embedding makes every external effect explicit:
* HTTP traffic is a function from request URL to an `HttpResult`
  (a transport failure, or a response carrying a status code and a body
  whose JSON parse either fails or yields a `Json` value);
* the filesystem, the executable search path and the home environment
  variable are fields of `FsEnv`;
* subprocess execution is a function from binary path to spawn outcome;
* each operation also returns the list of `Effect`s it performed
  (network GETs, binary lookup, spawn attempts, log lines), so that
  claims such as "no subprocess is spawned" are statable.

`io::Error` values are modelled as a kind (`ErrorKind`) plus the message
string, exactly as the Rust code builds them. The `.expect` on a missing
base URL is modelled as the `panicked` outcome of construction.
-/

/-- JSON values, mirroring `serde_json::Value`. Numbers are irrelevant to
every claim, so they are collapsed to an `Int` payload; objects are
association lists with unique keys (serde maps), read by first match. -/
inductive Json where
  | null : Json
  | bool (b : Bool) : Json
  | num (n : Int) : Json
  | str (s : String) : Json
  | arr (elems : List Json) : Json
  | obj (fields : List (String × Json)) : Json

/-- Mirrors `serde_json` indexing `json["key"]`: on an object, the value at
the key (or `Null` when absent); on every non-object value, `Null`. -/
def Json.index (j : Json) (key : String) : Json :=
  match j with
  | .obj fields =>
      match fields.lookup key with
      | some v => v
      | none => .null
  | _ => .null

/-- Mirrors `serde_json::Value::as_str`. -/
def Json.as_str : Json → Option String
  | .str s => some s
  | _ => none

/-- Mirrors `serde_json::Value::as_array`. -/
def Json.as_array : Json → Option (List Json)
  | .arr elems => some elems
  | _ => none

/-- The kinds of `std::io::Error` the crate constructs. -/
inductive ErrorKind where
  | notFound : ErrorKind
  | invalidData : ErrorKind
  | other : ErrorKind
deriving DecidableEq

/-- An `std::io::Error` as the crate builds them: a kind plus the message. -/
structure IoError where
  kind : ErrorKind
  msg : String
deriving DecidableEq

/-- Outcome of one HTTP GET as seen by the caller of `reqwest`, with the
body already run through `response.json()`: either the connection failed
(`transportError`, carrying the display text of the reqwest error), or a
response arrived with a status code and a JSON-parse outcome. -/
inductive HttpResult where
  | transportError (e : String) : HttpResult
  | response (status : Nat) (body : Except String Json) : HttpResult

/-- `StatusCode::is_success`: status in 200..=299. -/
def statusIsSuccess (status : Nat) : Bool :=
  decide (200 ≤ status) && decide (status < 300)

/-- Canonical reason phrases used by the `Display` impl of
`http::StatusCode`; only the codes exercised in this development are
tabulated, every other code renders the unknown marker exactly as the
`http` crate does. The claims only rely on the numeric part. -/
def canonicalReason (status : Nat) : String :=
  if status = 200 then "OK"
  else if status = 404 then "Not Found"
  else if status = 500 then "Internal Server Error"
  else "<unknown status code>"

/-- `Display` of `http::StatusCode`: the numeric code, a space, then the
canonical reason phrase. -/
def statusDisplay (status : Nat) : String :=
  toString status ++ " " ++ canonicalReason status

/-- `str::trim_end_matches('/')`: removes every trailing slash. -/
def trimEndSlashes (s : String) : String :=
  String.mk (((s.data.reverse).dropWhile (fun c => c = '/')).reverse)

/-- The URL both `check_server` and `fetch_models` request:
`format!("{}/models", self.base_url.trim_end_matches('/'))`. -/
def requestUrl (base_url : String) : String :=
  trimEndSlashes base_url ++ "/models"

/-- Externally visible effects of the crate, recorded in order. -/
inductive Effect where
  | netGet (url : String) : Effect
  | printErrLine (msg : String) : Effect
  | binaryLookup : Effect
  | spawnProc (binary : String) (args : List String) : Effect
  | logWarn (msg : String) : Effect
  | logInfo (msg : String) : Effect
deriving DecidableEq

/-- The `LMStudioClient` struct: the `reqwest::Client` handle carries no
claim-relevant state (only a connect timeout), so the embedded struct
holds the stored `base_url` string. -/
structure LMStudioClient where
  base_url : String
deriving DecidableEq

/-- A provider entry (`ModelProviderInfo`): the only field this crate
reads is the optional base URL. -/
structure ModelProviderInfo where
  base_url : Option String

/-- The slice of `codex_core::config::Config` this crate reads: the
configured model name and the provider map (an association list keyed by
provider id). -/
structure Config where
  model : String
  model_providers : List (String × ModelProviderInfo)

/-- Modelled from the spec: `codex_core::LMSTUDIO_OSS_PROVIDER_ID` lives
outside `src/`; the spec says the subsystem consumes exactly one
well-known provider key. Its concrete value is irrelevant to every
claim, only that lookups use this one key. -/
def LMSTUDIO_OSS_PROVIDER_ID : String := "lmstudio"

/-- `DEFAULT_OSS_MODEL` from `lib.rs` line 8. -/
def DEFAULT_OSS_MODEL : String := "openai/gpt-oss-20b"

/-- `LMStudioClient::check_server`: GETs `{base_url minus trailing
slashes}/models`; any 2xx status is success, any other status is an
`Other`-kind error naming the status, a transport failure is an
`Other`-kind error carrying the transport error text. Returns the
result together with the network effect performed. -/
def check_server (base_url : String) (net : String → HttpResult) :
    Except IoError Unit × List Effect :=
  let url := requestUrl base_url
  let r : Except IoError Unit :=
    match net url with
    | .response status _ =>
        if statusIsSuccess status then .ok ()
        else .error ⟨.other, "Server returned error: " ++ statusDisplay status⟩
    | .transportError e => .error ⟨.other, e⟩
  (r, [.netGet url])

/-- `LMStudioClient::fetch_models`: GETs the same URL; transport failure
maps to an `Other` error prefixed "Request failed: "; a non-2xx status
maps to an `Other` error prefixed "Failed to fetch models: "; on 2xx the
body is parsed (parse failure is `InvalidData`), `json["data"]` must be
an array (else `InvalidData`), and the result is each element of the
array indexed at "id" and kept when that is a string. -/
def fetch_models (base_url : String) (net : String → HttpResult) :
    Except IoError (List String) × List Effect :=
  let url := requestUrl base_url
  let r : Except IoError (List String) :=
    match net url with
    | .transportError e => .error ⟨.other, "Request failed: " ++ e⟩
    | .response status body =>
        if statusIsSuccess status then
          match body with
          | .error e => .error ⟨.invalidData, "JSON parse error: " ++ e⟩
          | .ok json =>
              match (json.index "data").as_array with
              | none => .error ⟨.invalidData, "No \x27data\x27 array in response"⟩
              | some elems =>
                  .ok (elems.filterMap (fun model => (model.index "id").as_str))
        else .error ⟨.other, "Failed to fetch models: " ++ statusDisplay status⟩
  (r, [.netGet url])

/-- Outcome of `LMStudioClient::try_from_provider`: a normal `io::Result`,
or the panic raised by `.expect("oss provider must have a base_url")`. -/
inductive ConstructResult where
  | panicked (msg : String) : ConstructResult
  | err (e : IoError) : ConstructResult
  | ok (c : LMStudioClient) : ConstructResult
deriving DecidableEq

/-- `LMStudioClient::try_from_provider`: looks the provider up by
`LMSTUDIO_OSS_PROVIDER_ID` (NotFound error when absent, before any
network traffic), panics when the entry has no base URL, then stores the
base URL verbatim and immediately runs `check_server`, propagating its
error. -/
def try_from_provider (config : Config) (net : String → HttpResult) :
    ConstructResult × List Effect :=
  match config.model_providers.lookup LMSTUDIO_OSS_PROVIDER_ID with
  | none =>
      (.err ⟨.notFound,
        "Built-in provider " ++ LMSTUDIO_OSS_PROVIDER_ID ++ " not found"⟩, [])
  | some provider =>
      match provider.base_url with
      | none => (.panicked "oss provider must have a base_url", [])
      | some base_url =>
          let client : LMStudioClient := ⟨base_url⟩
          let checked := check_server client.base_url net
          (match checked.1 with
           | .ok _ => .ok client
           | .error e => .err e,
           checked.2)

/-- Ambient filesystem and environment for the binary locator:
`isWindows` selects the `cfg` branch, `lmsInPath` is the outcome of
`which::which("lms").is_ok()`, `homeEnv` is the platform home variable
(`HOME` or `USERPROFILE`, `none` when unset), `fileExists` is
`Path::new(p).exists()`. -/
structure FsEnv where
  isWindows : Bool
  lmsInPath : Bool
  homeEnv : Option String
  fileExists : String → Bool

/-- The fallback install path computed by `find_lms_binary_with_home_dir`:
`home/.lmstudio/bin/lms` (with `.exe` on Windows), where `home` is the
explicit argument when given, else the environment variable defaulted to
the empty string. -/
def fallbackPath (env : FsEnv) (home_dir : Option String) : String :=
  let home : String :=
    match home_dir with
    | some dir => dir
    | none => env.homeEnv.getD ""
  if env.isWindows then home ++ "/.lmstudio/bin/lms.exe"
  else home ++ "/.lmstudio/bin/lms"

/-- `find_lms_binary_with_home_dir`: returns the bare name "lms" when it
resolves on the search path; otherwise checks the fallback install path
and returns it when that file exists, else a NotFound error pointing at
the install URL. -/
def find_lms_binary_with_home_dir (env : FsEnv) (home_dir : Option String) :
    Except IoError String :=
  if env.lmsInPath then
    .ok "lms"
  else
    let fallback_path := fallbackPath env home_dir
    if env.fileExists fallback_path then .ok fallback_path
    else
      .error ⟨.notFound,
        "LM Studio not found. Please install LM Studio from https://lmstudio.ai/"⟩

/-- `find_lms_binary`: the public entry, environment home lookup. -/
def find_lms_binary (env : FsEnv) : Except IoError String :=
  find_lms_binary_with_home_dir env none

/-- Outcome of `ensure_oss_ready`. -/
inductive EnsureResult where
  | panicked (msg : String) : EnsureResult
  | err (e : IoError) : EnsureResult
  | ok : EnsureResult
deriving DecidableEq

/-- The external world `ensure_oss_ready` interacts with: the network
response to the construction-time health check, the network response to
the model listing, the filesystem environment, and the outcome of
spawning the located binary (spawn failure text, or the exit code). -/
structure OssWorld where
  netCheck : String → HttpResult
  netFetch : String → HttpResult
  fs : FsEnv
  spawnStatus : String → Except String Nat

/-- `Display` of a unix `ExitStatus` that exited with a code. -/
def exitStatusDisplay (code : Nat) : String :=
  "exit status: " ++ toString code

/-- `ensure_oss_ready`: constructs the client (propagating failure),
lists models; on listing failure logs a warning and succeeds; on success,
when `DEFAULT_OSS_MODEL` is absent from the listing, prints a download
notice, locates the `lms` binary (propagating failure), spawns
`lms get --yes DEFAULT_OSS_MODEL` (spawn failure and nonzero exit are
errors), and logs an info line naming `config.model` on success. -/
def ensure_oss_ready (config : Config) (w : OssWorld) :
    EnsureResult × List Effect :=
  let cons := try_from_provider config w.netCheck
  match cons.1 with
  | .panicked m => (.panicked m, cons.2)
  | .err e => (.err e, cons.2)
  | .ok client =>
      let fetched := fetch_models client.base_url w.netFetch
      let tr := cons.2 ++ fetched.2
      match fetched.1 with
      | .ok models =>
          if !(models.any (fun m => m == DEFAULT_OSS_MODEL)) then
            let tr3 := tr ++
              [Effect.printErrLine ("Downloading model: " ++ DEFAULT_OSS_MODEL)]
            match find_lms_binary w.fs with
            | .error e => (.err e, tr3 ++ [.binaryLookup])
            | .ok lms_binary =>
                let tr4 := tr3 ++ [.binaryLookup,
                  .spawnProc lms_binary ["get", "--yes", DEFAULT_OSS_MODEL]]
                match w.spawnStatus lms_binary with
                | .error e =>
                    (.err ⟨.other,
                      "Failed to execute \x27" ++ lms_binary ++ " get --yes " ++
                        DEFAULT_OSS_MODEL ++ "\x27: " ++ e⟩, tr4)
                | .ok code =>
                    if code ≠ 0 then
                      (.err ⟨.other,
                        "lms command failed with status: " ++
                          exitStatusDisplay code⟩, tr4)
                    else
                      (.ok, tr4 ++ [.logInfo
                        ("Successfully downloaded model \x27" ++
                          config.model ++ "\x27")])
          else (.ok, tr)
      | .error e =>
          (.ok, tr ++ [.logWarn
            ("Failed to query local models from LM Studio: " ++ e.msg ++ ".")])

/-- Spec-side description of id extraction, written from the spec text:
walk the `data` elements in order; an element whose "id" indexes to a
string contributes that string, every other element is skipped. -/
def specExtractIds : List Json → List String
  | [] => []
  | m :: rest =>
      match (m.index "id").as_str with
      | some s => s :: specExtractIds rest
      | none => specExtractIds rest

theorem filterMap_eq_specExtractIds (elems : List Json) :
    elems.filterMap (fun model => (model.index "id").as_str) =
      specExtractIds elems := by
  induction elems with
  | nil => rfl
  | cons m rest ih =>
      cases h : (m.index "id").as_str with
      | none => simp [specExtractIds, List.filterMap_cons, h, ih]
      | some s => simp [specExtractIds, List.filterMap_cons, h, ih]

/-- C1: a 2xx response whose parsed body has a top-level `data` array
yields exactly the string `id` of each array element in order, skipping
elements without a string `id`; in particular an empty `data` array
yields the empty list, not an error. -/
theorem fetch_models_returns_ids_in_order
    (base_url : String) (net : String → HttpResult)
    (status : Nat) (json : Json) (elems : List Json)
    (hnet : net (requestUrl base_url) = .response status (.ok json))
    (hok : statusIsSuccess status = true)
    (hdata : json.index "data" = .arr elems) :
    (fetch_models base_url net).1 = .ok (specExtractIds elems) ∧
      (elems = [] → (fetch_models base_url net).1 = .ok []) := by
  have hmain : (fetch_models base_url net).1 = .ok (specExtractIds elems) := by
    simp [fetch_models, hnet, hok, hdata, Json.as_array,
      filterMap_eq_specExtractIds]
  refine ⟨hmain, fun he => ?_⟩
  rw [hmain, he]
  rfl

theorem specExtractIds_append (xs ys : List Json) :
    specExtractIds (xs ++ ys) = specExtractIds xs ++ specExtractIds ys := by
  induction xs with
  | nil => rfl
  | cons m rest ih =>
      cases h : (m.index "id").as_str with
      | none => simp [specExtractIds, h, ih]
      | some s => simp [specExtractIds, h, ih]

theorem index_of_non_obj (j : Json) (key : String)
    (h : ∀ fields, j ≠ Json.obj fields) : j.index key = .null := by
  cases j with
  | obj fields => exact absurd rfl (h fields)
  | null => rfl
  | bool b => rfl
  | num n => rfl
  | str s => rfl
  | arr elems => rfl

/-- C10: elements of the `data` array that are not objects at all, or
whose "id" does not index to a string, are skipped without error, and
the surviving ids keep their relative order. -/
theorem fetch_models_skips_malformed_elements
    (base_url : String) (net : String → HttpResult)
    (status : Nat) (json : Json) (xs ys : List Json) (bad : Json)
    (hnet : net (requestUrl base_url) = .response status (.ok json))
    (hok : statusIsSuccess status = true)
    (hdata : json.index "data" = .arr (xs ++ bad :: ys))
    (hbad : (∀ fields, bad ≠ Json.obj fields) ∨
      (bad.index "id").as_str = none) :
    (fetch_models base_url net).1 =
        .ok (specExtractIds xs ++ specExtractIds ys) := by
  have hskip : (bad.index "id").as_str = none := by
    rcases hbad with h | h
    · rw [index_of_non_obj bad "id" h]; rfl
    · exact h
  simp [fetch_models, hnet, hok, hdata, Json.as_array,
    filterMap_eq_specExtractIds, specExtractIds_append, specExtractIds, hskip]

/-- C10 witness: a string, a number, null, and an object whose id is a
number all vanish from the result while the two string ids survive in
order. -/
theorem fetch_models_skips_malformed_elements_witness :
    (fetch_models "http://localhost:1234"
      (fun _ => .response 200 (.ok (Json.obj [("data", Json.arr
        [Json.obj [("id", Json.str "a")],
         Json.num 7,
         Json.obj [("id", Json.str "b")]])])))).1 = .ok ["a", "b"] := by
  have h := fetch_models_skips_malformed_elements "http://localhost:1234"
    (fun _ => .response 200 (.ok (Json.obj [("data", Json.arr
      [Json.obj [("id", Json.str "a")],
       Json.num 7,
       Json.obj [("id", Json.str "b")]])])))
    200 (Json.obj [("data", Json.arr
      [Json.obj [("id", Json.str "a")],
       Json.num 7,
       Json.obj [("id", Json.str "b")]])])
    [Json.obj [("id", Json.str "a")]] [Json.obj [("id", Json.str "b")]]
    (Json.num 7)
    rfl (by decide) (by rfl)
    (Or.inl (fun fields h => Json.noConfusion h))
  simpa [specExtractIds] using h

/-- C6: a 2xx response whose parsed body does not carry a top-level
`data` array (missing field, or a non-array value there) is an
InvalidData error whose message names the `data` field. -/
theorem fetch_models_missing_data_is_malformed
    (base_url : String) (net : String → HttpResult)
    (status : Nat) (json : Json)
    (hnet : net (requestUrl base_url) = .response status (.ok json))
    (hok : statusIsSuccess status = true)
    (hnoarr : ∀ elems, json.index "data" ≠ Json.arr elems) :
    ∃ e, (fetch_models base_url net).1 = .error e ∧
      e.kind = .invalidData ∧
      ∃ a b, e.msg = a ++ "\x27data\x27" ++ b := by
  have harr : (json.index "data").as_array = none := by
    cases h : json.index "data" with
    | arr elems => exact absurd h (hnoarr elems)
    | null => rfl
    | bool b => rfl
    | num n => rfl
    | str s => rfl
    | obj fields => rfl
  refine ⟨⟨.invalidData, "No \x27data\x27 array in response"⟩, ?_, rfl,
    "No ", " array in response", ?_⟩
  · simp [fetch_models, hnet, hok, harr]
  · rfl

/-- C6 witness: a body whose `data` field is a string, not an array. -/
theorem fetch_models_missing_data_is_malformed_witness :
    ∃ e, (fetch_models "http://localhost:1234"
        (fun _ => .response 200 (.ok (Json.obj [("data", Json.str "x")])))).1
        = .error e ∧
      e.kind = .invalidData ∧ ∃ a b, e.msg = a ++ "\x27data\x27" ++ b := by
  exact fetch_models_missing_data_is_malformed "http://localhost:1234"
    (fun _ => .response 200 (.ok (Json.obj [("data", Json.str "x")])))
    200 (Json.obj [("data", Json.str "x")])
    rfl (by decide)
    (fun elems h => by simp [Json.index] at h)

/-- C1 witness: a data array with one well-formed entry, one entry with
no id and one non-object entry produces the single id. -/
theorem fetch_models_returns_ids_in_order_witness :
    (fetch_models "http://localhost:1234"
      (fun _ => .response 200 (.ok (Json.obj [("data", Json.arr
        [Json.obj [("id", Json.str "openai/gpt-oss-20b")],
         Json.obj [("owner", Json.str "x")],
         Json.str "stray"])])))).1 = .ok ["openai/gpt-oss-20b"] := by
  have h := fetch_models_returns_ids_in_order "http://localhost:1234"
    (fun _ => .response 200 (.ok (Json.obj [("data", Json.arr
      [Json.obj [("id", Json.str "openai/gpt-oss-20b")],
       Json.obj [("owner", Json.str "x")],
       Json.str "stray"])])))
    200 (Json.obj [("data", Json.arr
      [Json.obj [("id", Json.str "openai/gpt-oss-20b")],
       Json.obj [("owner", Json.str "x")],
       Json.str "stray"])])
    [Json.obj [("id", Json.str "openai/gpt-oss-20b")],
     Json.obj [("owner", Json.str "x")],
     Json.str "stray"]
    rfl (by decide) (by rfl)
  exact h.1

theorem check_server_snd (base_url : String) (net : String → HttpResult) :
    (check_server base_url net).2 = [Effect.netGet (requestUrl base_url)] := rfl

theorem fetch_models_snd (base_url : String) (net : String → HttpResult) :
    (fetch_models base_url net).2 = [Effect.netGet (requestUrl base_url)] := rfl

/-- C5: given any HTTP response, `check_server` succeeds exactly when the
status is 2xx, regardless of body; on a non-2xx status it returns an
Other-kind error whose message contains the numeric status code. -/
theorem check_server_success_iff_2xx
    (base_url : String) (net : String → HttpResult)
    (status : Nat) (body : Except String Json)
    (hnet : net (requestUrl base_url) = .response status body) :
    ((check_server base_url net).1 = .ok () ↔ statusIsSuccess status = true) ∧
      (statusIsSuccess status = false →
        ∃ e, (check_server base_url net).1 = .error e ∧ e.kind = .other ∧
          ∃ a b, e.msg = a ++ toString status ++ b) := by
  constructor
  · constructor
    · intro h
      cases hstat : statusIsSuccess status with
      | true => rfl
      | false => simp [check_server, hnet, hstat] at h
    · intro h
      simp [check_server, hnet, h]
  · intro h
    refine ⟨⟨.other, "Server returned error: " ++ statusDisplay status⟩, ?_, rfl,
      "Server returned error: ", " " ++ canonicalReason status, ?_⟩
    · simp [check_server, hnet, h]
    · simp [statusDisplay, String.append_assoc]

/-- C5 witness: status 404 with an arbitrary body fails with a message
containing "404"; paired with the iff at status 404. -/
theorem check_server_success_iff_2xx_witness :
    (((check_server "http://localhost:1234"
        (fun _ => .response 404 (.ok Json.null))).1 = .ok () ↔
      statusIsSuccess 404 = true) ∧
      (statusIsSuccess 404 = false →
        ∃ e, (check_server "http://localhost:1234"
            (fun _ => .response 404 (.ok Json.null))).1 = .error e ∧
          e.kind = .other ∧
          ∃ a b, e.msg = a ++ toString 404 ++ b)) := by
  exact check_server_success_iff_2xx "http://localhost:1234"
    (fun _ => .response 404 (.ok Json.null)) 404 (.ok Json.null) rfl

theorem transport_msg_ne_server_msg (a b : String) :
    "Request failed: " ++ a ≠ "Failed to fetch models: " ++ b := by
  intro h
  have h2 := congrArg (fun s => s.data.head?) h
  cases a with
  | mk la =>
      cases b with
      | mk lb => simp at h2

/-- C8: a transport failure and a reachable host answering non-2xx yield
errors `fetch_models` callers can tell apart: the transport error message
always starts "Request failed: ", the server error message always starts
"Failed to fetch models: ", and no message can be both. -/
theorem fetch_models_error_modes_distinguishable
    (bu1 bu2 : String) (net1 net2 : String → HttpResult)
    (e : String) (status : Nat) (body : Except String Json)
    (h1 : net1 (requestUrl bu1) = .transportError e)
    (h2 : net2 (requestUrl bu2) = .response status body)
    (hbad : statusIsSuccess status = false) :
    ∃ e1 e2,
      (fetch_models bu1 net1).1 = .error e1 ∧
      (fetch_models bu2 net2).1 = .error e2 ∧
      (∃ a, e1.msg = "Request failed: " ++ a) ∧
      (∃ b, e2.msg = "Failed to fetch models: " ++ b) ∧
      e1.msg ≠ e2.msg := by
  refine ⟨⟨.other, "Request failed: " ++ e⟩,
    ⟨.other, "Failed to fetch models: " ++ statusDisplay status⟩,
    ?_, ?_, ⟨e, rfl⟩, ⟨statusDisplay status, rfl⟩,
    transport_msg_ne_server_msg e (statusDisplay status)⟩
  · simp [fetch_models, h1]
  · simp [fetch_models, h2, hbad]

/-- C8 witness: a concrete connection refusal against a concrete 500. -/
theorem fetch_models_error_modes_distinguishable_witness :
    ∃ e1 e2,
      (fetch_models "http://a"
        (fun _ => .transportError "connection refused")).1 = .error e1 ∧
      (fetch_models "http://b"
        (fun _ => .response 500 (.ok Json.null))).1 = .error e2 ∧
      (∃ a, e1.msg = "Request failed: " ++ a) ∧
      (∃ b, e2.msg = "Failed to fetch models: " ++ b) ∧
      e1.msg ≠ e2.msg := by
  exact fetch_models_error_modes_distinguishable "http://a" "http://b"
    (fun _ => .transportError "connection refused")
    (fun _ => .response 500 (.ok Json.null))
    "connection refused" 500 (.ok Json.null) rfl rfl (by decide)

/-- C4: when the provider entry is absent, construction fails NotFound
with an empty effect trace (no network call); when the entry and its
base URL are present, construction performs exactly the health-check GET
and propagates the health-check outcome as its own result. -/
theorem try_from_provider_spec (cfg : Config) (net : String → HttpResult) :
    (cfg.model_providers.lookup LMSTUDIO_OSS_PROVIDER_ID = none →
      ∃ e, try_from_provider cfg net = (.err e, []) ∧ e.kind = .notFound) ∧
    (∀ p bu, cfg.model_providers.lookup LMSTUDIO_OSS_PROVIDER_ID = some p →
      p.base_url = some bu →
      (try_from_provider cfg net).2 = [Effect.netGet (requestUrl bu)] ∧
      (∀ e, (check_server bu net).1 = .error e →
        (try_from_provider cfg net).1 = .err e) ∧
      ((check_server bu net).1 = .ok () →
        (try_from_provider cfg net).1 = .ok ⟨bu⟩)) := by
  constructor
  · intro hnone
    refine ⟨⟨.notFound,
      "Built-in provider " ++ LMSTUDIO_OSS_PROVIDER_ID ++ " not found"⟩, ?_, rfl⟩
    simp [try_from_provider, hnone]
  · intro p bu hp hb
    refine ⟨?_, ?_, ?_⟩
    · simp [try_from_provider, hp, hb, check_server_snd]
    · intro e he
      simp [try_from_provider, hp, hb, he]
    · intro hok
      simp [try_from_provider, hp, hb, hok]

/-- C4 witness: an empty provider map fails NotFound with no network
traffic; a present provider with a 404-answering server propagates the
health-check error. -/
theorem try_from_provider_spec_witness :
    (∃ e, try_from_provider ⟨"m", []⟩ (fun _ => .transportError "x") =
        (.err e, []) ∧ e.kind = .notFound) ∧
    (try_from_provider ⟨"m", [(LMSTUDIO_OSS_PROVIDER_ID, ⟨some "http://h"⟩)]⟩
        (fun _ => .response 404 (.ok Json.null))).1 =
      .err ⟨.other, "Server returned error: " ++ statusDisplay 404⟩ := by
  constructor
  · exact (try_from_provider_spec ⟨"m", []⟩ (fun _ => .transportError "x")).1 rfl
  · exact ((try_from_provider_spec
        ⟨"m", [(LMSTUDIO_OSS_PROVIDER_ID, ⟨some "http://h"⟩)]⟩
        (fun _ => .response 404 (.ok Json.null))).2
      ⟨some "http://h"⟩ "http://h" rfl rfl).2.1
      ⟨.other, "Server returned error: " ++ statusDisplay 404⟩ rfl

/-- C7: the locator returns the bare name "lms" when the search path
resolves it; otherwise it returns the fallback path when that file
exists, else a NotFound error whose message contains the install URL;
and with an explicit home directory the outcome never depends on the
home environment variable. -/
theorem find_lms_binary_locator_spec (env : FsEnv) (home_dir : Option String) :
    (env.lmsInPath = true →
      find_lms_binary_with_home_dir env home_dir = .ok "lms") ∧
    (env.lmsInPath = false →
      (env.fileExists (fallbackPath env home_dir) = true →
        find_lms_binary_with_home_dir env home_dir =
          .ok (fallbackPath env home_dir)) ∧
      (env.fileExists (fallbackPath env home_dir) = false →
        ∃ e, find_lms_binary_with_home_dir env home_dir = .error e ∧
          e.kind = .notFound ∧
          ∃ a b, e.msg = a ++ "https://lmstudio.ai/" ++ b)) ∧
    (∀ d h1 h2,
      find_lms_binary_with_home_dir
          ⟨env.isWindows, env.lmsInPath, h1, env.fileExists⟩ (some d) =
        find_lms_binary_with_home_dir
          ⟨env.isWindows, env.lmsInPath, h2, env.fileExists⟩ (some d)) := by
  refine ⟨?_, ?_, ?_⟩
  · intro h
    simp [find_lms_binary_with_home_dir, h]
  · intro h
    constructor
    · intro hf
      simp [find_lms_binary_with_home_dir, h, hf]
    · intro hf
      refine ⟨⟨.notFound,
        "LM Studio not found. Please install LM Studio from https://lmstudio.ai/"⟩,
        ?_, rfl, "LM Studio not found. Please install LM Studio from ", "", ?_⟩
      · simp [find_lms_binary_with_home_dir, h, hf]
      · rfl
  · intro d h1 h2
    cases hin : env.lmsInPath with
    | true => simp [find_lms_binary_with_home_dir, hin]
    | false => simp [find_lms_binary_with_home_dir, fallbackPath, hin]

/-- C7 witness: "lms" on the search path wins; off the search path with
no fallback file, the locator fails with the install pointer. -/
theorem find_lms_binary_locator_spec_witness :
    find_lms_binary_with_home_dir ⟨false, true, none, fun _ => false⟩ none =
      .ok "lms" ∧
    ∃ e, find_lms_binary_with_home_dir ⟨false, false, none, fun _ => false⟩
        (some "/test/home") = .error e ∧
      e.kind = .notFound ∧
      ∃ a b, e.msg = a ++ "https://lmstudio.ai/" ++ b := by
  constructor
  · exact (find_lms_binary_locator_spec
      ⟨false, true, none, fun _ => false⟩ none).1 rfl
  · exact ((find_lms_binary_locator_spec
      ⟨false, false, none, fun _ => false⟩ (some "/test/home")).2.1 rfl).2 rfl

/-- C9 counterexample: a successfully constructed client whose stored
base URL still carries its trailing slash, so the stored state is not
normalized. -/
theorem client_stores_trailing_slash_counterexample :
    ∃ c tr, try_from_provider
        ⟨"openai/gpt-oss-20b",
          [(LMSTUDIO_OSS_PROVIDER_ID, ⟨some "http://localhost:1234/"⟩)]⟩
        (fun _ => .response 200 (.ok Json.null)) = (.ok c, tr) ∧
      c.base_url = "http://localhost:1234/" ∧
      trimEndSlashes c.base_url ≠ c.base_url := by
  refine ⟨⟨"http://localhost:1234/"⟩,
    [Effect.netGet (requestUrl "http://localhost:1234/")], rfl, rfl, ?_⟩
  decide

/-- C9 amended: the constructed client stores the configured base URL
verbatim (trailing slash included); normalization happens at request
time instead, where both operations GET the trailing-slash-stripped base
URL followed by "/models". -/
theorem client_stores_raw_url_normalized_per_request
    (cfg : Config) (net : String → HttpResult) (p : ModelProviderInfo)
    (bu : String) (c : LMStudioClient) (tr : List Effect)
    (hp : cfg.model_providers.lookup LMSTUDIO_OSS_PROVIDER_ID = some p)
    (hb : p.base_url = some bu)
    (hres : try_from_provider cfg net = (.ok c, tr)) :
    c.base_url = bu ∧
    (check_server c.base_url net).2 =
      [Effect.netGet (trimEndSlashes bu ++ "/models")] ∧
    (fetch_models c.base_url net).2 =
      [Effect.netGet (trimEndSlashes bu ++ "/models")] := by
  have h1 := congrArg Prod.fst hres
  have hc : c = ⟨bu⟩ := by
    simp only [try_from_provider, hp, hb] at h1
    cases hcs : (check_server bu net).1 with
    | ok u =>
        rw [hcs] at h1
        simp at h1
        exact h1.symm
    | error e =>
        rw [hcs] at h1
        simp at h1
  subst hc
  exact ⟨rfl, rfl, rfl⟩

/-- C9 amended witness: a configured base URL with a trailing slash is
stored verbatim, and each request targets the stripped URL. -/
theorem client_stores_raw_url_normalized_per_request_witness :
    (LMStudioClient.mk "http://h/").base_url = "http://h/" ∧
    (check_server (LMStudioClient.mk "http://h/").base_url
        (fun _ => .response 200 (.ok Json.null))).2 =
      [Effect.netGet (trimEndSlashes "http://h/" ++ "/models")] ∧
    (fetch_models (LMStudioClient.mk "http://h/").base_url
        (fun _ => .response 200 (.ok Json.null))).2 =
      [Effect.netGet (trimEndSlashes "http://h/" ++ "/models")] := by
  exact client_stores_raw_url_normalized_per_request
    ⟨"m", [(LMSTUDIO_OSS_PROVIDER_ID, ⟨some "http://h/"⟩)]⟩
    (fun _ => .response 200 (.ok Json.null))
    ⟨some "http://h/"⟩ "http://h/" ⟨"http://h/"⟩
    [Effect.netGet (requestUrl "http://h/")] rfl rfl rfl

theorem try_from_provider_snd_shape (cfg : Config) (net : String → HttpResult) :
    (try_from_provider cfg net).2 = [] ∨
      ∃ u, (try_from_provider cfg net).2 = [Effect.netGet u] := by
  unfold try_from_provider
  cases cfg.model_providers.lookup LMSTUDIO_OSS_PROVIDER_ID with
  | none => exact Or.inl rfl
  | some p =>
      cases hb : p.base_url with
      | none => left; simp [hb]
      | some bu =>
          right
          exact ⟨requestUrl bu, by simp [hb, check_server_snd]⟩

theorem try_from_provider_effects (cfg : Config) (net : String → HttpResult) :
    ∀ eff ∈ (try_from_provider cfg net).2, ∃ u, eff = Effect.netGet u := by
  intro eff h
  rcases try_from_provider_snd_shape cfg net with h2 | ⟨u, h2⟩
  · rw [h2] at h
    simp at h
  · rw [h2] at h
    simp at h
    exact ⟨u, h⟩

/-- C2: when construction succeeds and the model-listing step fails with
any error, the readiness flow records the warning and returns success:
no error propagates, the binary lookup is never attempted, and no
subprocess spawn is attempted. -/
theorem ensure_oss_ready_listing_failure_is_advisory
    (cfg : Config) (w : OssWorld) (c : LMStudioClient) (tr : List Effect)
    (e : IoError)
    (hcons : try_from_provider cfg w.netCheck = (.ok c, tr))
    (hfetch : (fetch_models c.base_url w.netFetch).1 = .error e) :
    (ensure_oss_ready cfg w).1 = .ok ∧
    Effect.logWarn ("Failed to query local models from LM Studio: " ++
      e.msg ++ ".") ∈ (ensure_oss_ready cfg w).2 ∧
    ∀ eff ∈ (ensure_oss_ready cfg w).2,
      eff ≠ Effect.binaryLookup ∧ ∀ b a, eff ≠ Effect.spawnProc b a := by
  have hens : ensure_oss_ready cfg w =
      (.ok, tr ++ [Effect.netGet (requestUrl c.base_url)] ++
        [Effect.logWarn ("Failed to query local models from LM Studio: " ++
          e.msg ++ ".")]) := by
    simp [ensure_oss_ready, hcons, hfetch, fetch_models_snd]
  refine ⟨by rw [hens], ?_, ?_⟩
  · rw [hens]
    simp
  · intro eff heff
    rw [hens] at heff
    simp at heff
    rcases heff with h | h | h
    · obtain ⟨u, hu⟩ := try_from_provider_effects cfg w.netCheck eff
        (by rw [hcons]; exact h)
      subst hu
      simp
    · subst h
      simp
    · subst h
      simp

/-- C2 witness: a healthy server whose listing call then hits a connect
failure still yields overall success with the warning recorded and no
binary lookup. -/
theorem ensure_oss_ready_listing_failure_is_advisory_witness :
    (ensure_oss_ready
        ⟨"openai/gpt-oss-20b", [(LMSTUDIO_OSS_PROVIDER_ID, ⟨some "http://h"⟩)]⟩
        ⟨fun _ => .response 200 (.ok Json.null),
         fun _ => .transportError "refused",
         ⟨false, false, none, fun _ => false⟩,
         fun _ => .error "nope"⟩).1 = .ok ∧
    Effect.logWarn ("Failed to query local models from LM Studio: " ++
      "Request failed: refused" ++ ".") ∈
      (ensure_oss_ready
        ⟨"openai/gpt-oss-20b", [(LMSTUDIO_OSS_PROVIDER_ID, ⟨some "http://h"⟩)]⟩
        ⟨fun _ => .response 200 (.ok Json.null),
         fun _ => .transportError "refused",
         ⟨false, false, none, fun _ => false⟩,
         fun _ => .error "nope"⟩).2 ∧
    Effect.binaryLookup ∉
      (ensure_oss_ready
        ⟨"openai/gpt-oss-20b", [(LMSTUDIO_OSS_PROVIDER_ID, ⟨some "http://h"⟩)]⟩
        ⟨fun _ => .response 200 (.ok Json.null),
         fun _ => .transportError "refused",
         ⟨false, false, none, fun _ => false⟩,
         fun _ => .error "nope"⟩).2 := by
  have h := ensure_oss_ready_listing_failure_is_advisory
    ⟨"openai/gpt-oss-20b", [(LMSTUDIO_OSS_PROVIDER_ID, ⟨some "http://h"⟩)]⟩
    ⟨fun _ => .response 200 (.ok Json.null),
     fun _ => .transportError "refused",
     ⟨false, false, none, fun _ => false⟩,
     fun _ => .error "nope"⟩
    ⟨"http://h"⟩ [Effect.netGet (requestUrl "http://h")]
    ⟨.other, "Request failed: refused"⟩ rfl rfl
  exact ⟨h.1, h.2.1, fun hmem => (h.2.2 _ hmem).1 rfl⟩

/-- C3: when construction succeeds, listing succeeds, and the default
model is in the listing, the flow is a no-op success: no binary lookup
and no subprocess spawn. -/
theorem ensure_oss_ready_noop_when_model_present
    (cfg : Config) (w : OssWorld) (c : LMStudioClient) (tr : List Effect)
    (models : List String)
    (hcons : try_from_provider cfg w.netCheck = (.ok c, tr))
    (hfetch : (fetch_models c.base_url w.netFetch).1 = .ok models)
    (hmem : DEFAULT_OSS_MODEL ∈ models) :
    (ensure_oss_ready cfg w).1 = .ok ∧
    ∀ eff ∈ (ensure_oss_ready cfg w).2,
      eff ≠ Effect.binaryLookup ∧ ∀ b a, eff ≠ Effect.spawnProc b a := by
  have hany : models.any (fun m => m == DEFAULT_OSS_MODEL) = true := by
    rw [List.any_eq_true]
    exact ⟨DEFAULT_OSS_MODEL, hmem, by simp⟩
  have hens : ensure_oss_ready cfg w =
      (.ok, tr ++ [Effect.netGet (requestUrl c.base_url)]) := by
    simp [ensure_oss_ready, hcons, hfetch, fetch_models_snd, hany]
  refine ⟨by rw [hens], ?_⟩
  intro eff heff
  rw [hens] at heff
  simp at heff
  rcases heff with h | h
  · obtain ⟨u, hu⟩ := try_from_provider_effects cfg w.netCheck eff
      (by rw [hcons]; exact h)
    subst hu
    simp
  · subst h
    simp

/-- C3 witness: the default model listed means overall success with no
binary lookup and no spawn of the download command. -/
theorem ensure_oss_ready_noop_when_model_present_witness :
    (ensure_oss_ready
        ⟨"openai/gpt-oss-20b", [(LMSTUDIO_OSS_PROVIDER_ID, ⟨some "http://h"⟩)]⟩
        ⟨fun _ => .response 200 (.ok Json.null),
         fun _ => .response 200 (.ok (Json.obj [("data", Json.arr
           [Json.obj [("id", Json.str "openai/gpt-oss-20b")]])])),
         ⟨false, false, none, fun _ => false⟩,
         fun _ => .error "nope"⟩).1 = .ok ∧
    Effect.binaryLookup ∉
      (ensure_oss_ready
        ⟨"openai/gpt-oss-20b", [(LMSTUDIO_OSS_PROVIDER_ID, ⟨some "http://h"⟩)]⟩
        ⟨fun _ => .response 200 (.ok Json.null),
         fun _ => .response 200 (.ok (Json.obj [("data", Json.arr
           [Json.obj [("id", Json.str "openai/gpt-oss-20b")]])])),
         ⟨false, false, none, fun _ => false⟩,
         fun _ => .error "nope"⟩).2 ∧
    Effect.spawnProc "lms" ["get", "--yes", DEFAULT_OSS_MODEL] ∉
      (ensure_oss_ready
        ⟨"openai/gpt-oss-20b", [(LMSTUDIO_OSS_PROVIDER_ID, ⟨some "http://h"⟩)]⟩
        ⟨fun _ => .response 200 (.ok Json.null),
         fun _ => .response 200 (.ok (Json.obj [("data", Json.arr
           [Json.obj [("id", Json.str "openai/gpt-oss-20b")]])])),
         ⟨false, false, none, fun _ => false⟩,
         fun _ => .error "nope"⟩).2 := by
  have h := ensure_oss_ready_noop_when_model_present
    ⟨"openai/gpt-oss-20b", [(LMSTUDIO_OSS_PROVIDER_ID, ⟨some "http://h"⟩)]⟩
    ⟨fun _ => .response 200 (.ok Json.null),
     fun _ => .response 200 (.ok (Json.obj [("data", Json.arr
       [Json.obj [("id", Json.str "openai/gpt-oss-20b")]])])),
     ⟨false, false, none, fun _ => false⟩,
     fun _ => .error "nope"⟩
    ⟨"http://h"⟩ [Effect.netGet (requestUrl "http://h")]
    ["openai/gpt-oss-20b"] rfl rfl (by simp [DEFAULT_OSS_MODEL])
  exact ⟨h.1, fun hmem => (h.2 _ hmem).1 rfl,
    fun hmem => (h.2 _ hmem).2 "lms" ["get", "--yes", DEFAULT_OSS_MODEL] rfl⟩
